import Mathlib

/-!
Verification of the appointment booking and slot-allocation core of the
medical-consultation backend.  The data model mirrors the SQL schema
(users, doctors, doctor_time_slots, appointments, notifications) and the
four operations mirror the Express route handlers of the appointments
router: POST / (bookAppointment), PUT /:id/status (updateStatus),
DELETE /:id (cancelAppointment) and GET /:id (getAppointment), together
with the middleware that gates them (requirePatient, requireDoctor).

Modelling conventions: machine time is an abstract Nat timeline in which
a request date denotes the instant at midnight of that date and the
time-of-day field is the offset within the day; SQL rows are Lean lists;
the WHERE ... LIMIT rows[0] access pattern is List.find?; the
database.js transaction wrapper (BEGIN / COMMIT / ROLLBACK) is modelled
by operations returning the pair (post-state, result) where every error
branch returns the unchanged input state.  Notification display strings
(titles and interpolated French messages) are elided; the type tag,
recipient and related appointment id are kept.
-/

/-- Roles of the users table (column role). -/
inductive Role where
  | patient
  | doctor
  | admin
deriving DecidableEq

/-- Appointment statuses (appointments.status). -/
inductive Status where
  | scheduled
  | confirmed
  | completed
  | cancelled
  | no_show
deriving DecidableEq

/-- Consultation modes (ONLINE / OFFLINE). -/
inductive Mode where
  | online
  | offline
deriving DecidableEq

/-- A row of the users table (the fields the appointment core reads). -/
structure User where
  id : Nat
  role : Role
  isActive : Bool
deriving DecidableEq

/-- A row of the doctors table (the fields the appointment core reads). -/
structure Doctor where
  id : Nat
  userId : Nat
  isAvailable : Bool
  consultationModes : List Mode
  consultationFee : Nat
deriving DecidableEq

/-- A row of the doctor_time_slots table. -/
structure Slot where
  id : Nat
  doctorId : Nat
  slotDate : Nat
  slotTime : Nat
  isBooked : Bool
deriving DecidableEq

/-- A row of the appointments table. -/
structure Appointment where
  id : Nat
  patientId : Nat
  doctorId : Nat
  slotId : Nat
  apptDate : Nat
  apptTime : Nat
  mode : Mode
  reason : Option String
  fee : Nat
  status : Status
  notes : Option String
  prescription : Option String
deriving DecidableEq

/-- A row of the notifications table (type tag, recipient and related
appointment id; display strings elided). -/
structure Notification where
  userId : Nat
  ntype : String
  relatedAppointmentId : Nat
deriving DecidableEq

/-- The persistent state read and written by the appointment routes.
nextApptId models the SERIAL primary-key counter of appointments. -/
structure DB where
  users : List User
  doctors : List Doctor
  slots : List Slot
  appointments : List Appointment
  notifications : List Notification
  nextApptId : Nat
deriving DecidableEq

/-- The error taxonomy of the route handlers: forbidden (middleware and
permission checks), validationFailed (Joi), doctorNotAvailable (the
message Doctor not found or not available), modeNotSupported (the
message Doctor does not support ... consultations), slotConflict (the
message Selected time slot is not available), notFound (missing row),
invalidState (the message Cannot cancel appointment with current
status). -/
inductive ApiError where
  | forbidden
  | validationFailed
  | doctorNotAvailable
  | modeNotSupported
  | slotConflict
  | notFound
  | invalidState
deriving DecidableEq

/-- The errors the spec taxonomy groups under NotAvailableError: doctor
absent, inactive or unavailable, and unsupported consultation mode. -/
def ApiError.isNotAvailableError : ApiError → Bool
  | ApiError.doctorNotAvailable => true
  | ApiError.modeNotSupported => true
  | _ => false

/-- Body of POST / after Joi validation. -/
structure BookRequest where
  doctorId : Nat
  appointmentDate : Nat
  appointmentTime : Nat
  consultationMode : Mode
  reasonForVisit : Option String
deriving DecidableEq

/-- The Joi schema of POST /: doctorId positive, appointmentDate at
least now (Joi date min now), appointmentTime a valid HH:MM time of day
(the regex, modelled as minutes below 1440), reasonForVisit at most 500
characters.  The consultationMode valid-values check is inherent in the
Mode type. -/
def validBookRequest (req : BookRequest) (now : Nat) : Bool :=
  decide (0 < req.doctorId) &&
  decide (now ≤ req.appointmentDate) &&
  decide (req.appointmentTime < 1440) &&
  (match req.reasonForVisit with
   | some r => decide (r.length ≤ 500)
   | none => true)

/-- The doctor query of POST /: doctors row with the given id joined to
an active users row, restricted to is_available = true.  rows[0] of the
result. -/
def findAvailableDoctor (db : DB) (did : Nat) : Option Doctor :=
  db.doctors.find? (fun d => d.id == did && d.isAvailable &&
    db.users.any (fun u => u.id == d.userId && u.isActive))

/-- The slot query of POST /: doctor_time_slots row for the key
(doctor, date, time) with is_booked = false.  rows[0] of the result. -/
def findFreeSlot (db : DB) (did date time : Nat) : Option Slot :=
  db.slots.find? (fun s => s.doctorId == did && s.slotDate == date &&
    s.slotTime == time && !s.isBooked)

/-- The appointments row inserted by POST /: status scheduled, linked to
the reserved slot, fee copied from the doctors row at booking time. -/
def mkBookedAppt (db : DB) (u : User) (req : BookRequest) (d : Doctor)
    (s : Slot) : Appointment :=
  { id := db.nextApptId
    patientId := u.id
    doctorId := req.doctorId
    slotId := s.id
    apptDate := req.appointmentDate
    apptTime := req.appointmentTime
    mode := req.consultationMode
    reason := req.reasonForVisit
    fee := d.consultationFee
    status := Status.scheduled
    notes := none
    prescription := none }

/-- The UPDATE doctor_time_slots SET is_booked = true WHERE id = sid. -/
def bookSlotUpdate (slots : List Slot) (sid : Nat) : List Slot :=
  slots.map (fun t => if t.id == sid then { t with isBooked := true } else t)

/-- The committed state of a successful POST /: appointment inserted,
slot marked booked, two notifications inserted (confirmation to the
patient, new_appointment to the user account of the doctor). -/
def bookResultDb (db : DB) (u : User) (req : BookRequest) (d : Doctor)
    (s : Slot) : DB :=
  { db with
    appointments := db.appointments ++ [mkBookedAppt db u req d s]
    slots := bookSlotUpdate db.slots s.id
    notifications := db.notifications ++
      [ { userId := u.id, ntype := "confirmation",
          relatedAppointmentId := db.nextApptId },
        { userId := d.userId, ntype := "new_appointment",
          relatedAppointmentId := db.nextApptId } ]
    nextApptId := db.nextApptId + 1 }

/-- POST / (book appointment).  Middleware order: authenticateToken
(modelled by the User argument), requirePatient, Joi validation, then
the transaction body: doctor check, consultation-mode check, free-slot
check, appointment insert, slot update, notification inserts.  Every
error branch rolls back, returning the input state unchanged. -/
def bookAppointment (db : DB) (u : User) (req : BookRequest) (now : Nat) :
    DB × Except ApiError Appointment :=
  if u.role ≠ Role.patient then (db, Except.error ApiError.forbidden)
  else if validBookRequest req now = false then
    (db, Except.error ApiError.validationFailed)
  else
    match findAvailableDoctor db req.doctorId with
    | none => (db, Except.error ApiError.doctorNotAvailable)
    | some d =>
      if d.consultationModes.contains req.consultationMode = false then
        (db, Except.error ApiError.modeNotSupported)
      else
        match findFreeSlot db req.doctorId req.appointmentDate
            req.appointmentTime with
        | none => (db, Except.error ApiError.slotConflict)
        | some s =>
          (bookResultDb db u req d s, Except.ok (mkBookedAppt db u req d s))

/-- Body of PUT /:id/status after Joi validation. -/
structure UpdateRequest where
  newStatus : Status
  notes : Option String
  prescription : Option String
deriving DecidableEq

/-- The Joi schema of PUT /:id/status: status one of confirmed,
completed, cancelled, no_show (scheduled is not a permitted value);
notes and prescription at most 1000 characters. -/
def validUpdateRequest (req : UpdateRequest) : Bool :=
  !(req.newStatus == Status.scheduled) &&
  (match req.notes with
   | some n => decide (n.length ≤ 1000)
   | none => true) &&
  (match req.prescription with
   | some p => decide (p.length ≤ 1000)
   | none => true)

/-- The doctors-profile query of the requireDoctor middleware:
doctors row WHERE user_id = uid, rows[0]. -/
def findDoctorByUserId (db : DB) (uid : Nat) : Option Doctor :=
  db.doctors.find? (fun d => d.userId == uid)

/-- appointments row WHERE id = aid, rows[0]. -/
def findAppointment (db : DB) (aid : Nat) : Option Appointment :=
  db.appointments.find? (fun a => a.id == aid)

/-- doctors row WHERE id = did (the JOIN doctors d ON a.doctor_id = d.id
of the appointment queries), rows[0]. -/
def findDoctorById (db : DB) (did : Nat) : Option Doctor :=
  db.doctors.find? (fun d => d.id == did)

/-- The UPDATE of PUT /:id/status applied to one appointments row:
status always set; notes and prescription only when supplied. -/
def applyStatusUpdate (req : UpdateRequest) (a : Appointment) : Appointment :=
  { a with
    status := req.newStatus
    notes := match req.notes with
             | some n => some n
             | none => a.notes
    prescription := match req.prescription with
                    | some p => some p
                    | none => a.prescription }

/-- The state after a successful PUT /:id/status: the appointment row
updated and one status_update notification inserted for the patient.
The slot is not touched by this handler. -/
def updResultDb (db : DB) (apptId : Nat) (appt : Appointment)
    (req : UpdateRequest) : DB :=
  { db with
    appointments := db.appointments.map
      (fun a => if a.id == apptId then applyStatusUpdate req a else a)
    notifications := db.notifications ++
      [ { userId := appt.patientId, ntype := "status_update",
          relatedAppointmentId := apptId } ] }

/-- PUT /:id/status (update appointment status).  Middleware order:
authenticateToken, requireDoctor (role check, doctors-profile lookup
returning 404 when absent, availability check), then the handler: Joi
validation, appointment lookup joined to doctors (404 when either row
is missing), ownership check against the user id of the doctor of the
appointment, unconditional status update, status_update notification.
There is no guard on the current status of the appointment. -/
def updateStatus (db : DB) (u : User) (apptId : Nat) (req : UpdateRequest) :
    DB × Except ApiError Appointment :=
  if u.role ≠ Role.doctor then (db, Except.error ApiError.forbidden)
  else
    match findDoctorByUserId db u.id with
    | none => (db, Except.error ApiError.notFound)
    | some prof =>
      if prof.isAvailable = false then (db, Except.error ApiError.forbidden)
      else if validUpdateRequest req = false then
        (db, Except.error ApiError.validationFailed)
      else
        match findAppointment db apptId with
        | none => (db, Except.error ApiError.notFound)
        | some appt =>
          match findDoctorById db appt.doctorId with
          | none => (db, Except.error ApiError.notFound)
          | some apptDoctor =>
            if apptDoctor.userId ≠ u.id then
              (db, Except.error ApiError.forbidden)
            else
              (updResultDb db apptId appt req,
               Except.ok (applyStatusUpdate req appt))

/-- The canCancel permission expression of DELETE /:id: owning patient,
owning doctor (matched through the user id of the doctors row of the
appointment) or admin. -/
def canCancel (u : User) (appt : Appointment) (apptDoctor : Doctor) : Bool :=
  (u.role == Role.patient && appt.patientId == u.id) ||
  (u.role == Role.doctor && apptDoctor.userId == u.id) ||
  (u.role == Role.admin)

/-- The UPDATE appointments SET status = cancelled WHERE id = apptId. -/
def cancelStatusUpdate (appts : List Appointment) (apptId : Nat) :
    List Appointment :=
  appts.map (fun a =>
    if a.id == apptId then { a with status := Status.cancelled } else a)

/-- The UPDATE doctor_time_slots SET is_booked = false WHERE id = sid. -/
def releaseSlotUpdate (slots : List Slot) (sid : Nat) : List Slot :=
  slots.map (fun s => if s.id == sid then { s with isBooked := false } else s)

/-- The single cancellation notification of DELETE /:id: to the user
account of the doctor when a patient cancels, otherwise (doctor or
admin requester) to the patient. -/
def cancelNotif (u : User) (appt : Appointment) (apptDoctor : Doctor)
    (apptId : Nat) : Notification :=
  if u.role == Role.patient then
    { userId := apptDoctor.userId, ntype := "cancellation",
      relatedAppointmentId := apptId }
  else
    { userId := appt.patientId, ntype := "cancellation",
      relatedAppointmentId := apptId }

/-- The committed state of a successful DELETE /:id: status set to
cancelled, slot released, one cancellation notification inserted. -/
def cancelResultDb (db : DB) (u : User) (apptId : Nat) (appt : Appointment)
    (apptDoctor : Doctor) : DB :=
  { db with
    appointments := cancelStatusUpdate db.appointments apptId
    slots := releaseSlotUpdate db.slots appt.slotId
    notifications := db.notifications ++ [cancelNotif u appt apptDoctor apptId] }

/-- DELETE /:id (cancel appointment).  Inside one transaction: load the
appointment joined to doctors (error when either row is missing), the
canCancel permission check, the status guard (only scheduled or
confirmed may be cancelled), then status update, slot release and the
cancellation notification.  Every error branch rolls back, returning
the input state unchanged. -/
def cancelAppointment (db : DB) (u : User) (apptId : Nat) :
    DB × Except ApiError Unit :=
  match findAppointment db apptId with
  | none => (db, Except.error ApiError.notFound)
  | some appt =>
    match findDoctorById db appt.doctorId with
    | none => (db, Except.error ApiError.notFound)
    | some apptDoctor =>
      if canCancel u appt apptDoctor = false then
        (db, Except.error ApiError.forbidden)
      else if (appt.status == Status.scheduled ||
               appt.status == Status.confirmed) = false then
        (db, Except.error ApiError.invalidState)
      else
        (cancelResultDb db u apptId appt apptDoctor, Except.ok ())

/-- GET /:id access check and read.  The reqDoctor argument models the
req.doctor field of the Express request, which is populated only by the
requireDoctor middleware; the access check compares the doctor id of
the appointment against it. -/
def getAppointment (db : DB) (u : User) (reqDoctor : Option Nat)
    (apptId : Nat) : Except ApiError Appointment :=
  match findAppointment db apptId with
  | none => Except.error ApiError.notFound
  | some appt =>
    let hasAccess :=
      (u.role == Role.patient && appt.patientId == u.id) ||
      (u.role == Role.doctor &&
        (match reqDoctor with
         | some did => appt.doctorId == did
         | none => false)) ||
      (u.role == Role.admin)
    if hasAccess then Except.ok appt else Except.error ApiError.forbidden

/-- The GET /:id route as wired in the router: its middleware chain is
authenticateToken only, so req.doctor is never set on this route. -/
def getAppointmentRoute (db : DB) (u : User) (apptId : Nat) :
    Except ApiError Appointment :=
  getAppointment db u none apptId

/-- A status counting as active: scheduled or confirmed. -/
def activeStatus (s : Status) : Bool :=
  s == Status.scheduled || s == Status.confirmed

/-- A terminal status: completed, cancelled or no_show. -/
def isTerminal (s : Status) : Bool :=
  s == Status.completed || s == Status.cancelled || s == Status.no_show

/-- The slot referenced by an appointment exists and is booked. -/
def apptSlotBooked (db : DB) (a : Appointment) : Bool :=
  db.slots.any (fun s => s.id == a.slotId && s.isBooked)

/-- The predicate: appointment references slot sid and is not
cancelled. -/
def refP (sid : Nat) : Appointment → Bool :=
  fun a => a.slotId == sid && !(a.status == Status.cancelled)

/-- Number of non-cancelled appointments referencing slot sid. -/
def nonCancelledCount (db : DB) (sid : Nat) : Nat :=
  db.appointments.countP (refP sid)

/-- The bidirectional slot/appointment consistency invariant of the
spec: every active appointment references an existing booked slot;
every booked slot is referenced by exactly one non-cancelled
appointment; every free slot is referenced by no active appointment. -/
def consistent (db : DB) : Bool :=
  db.appointments.all (fun a => !(activeStatus a.status) || apptSlotBooked db a) &&
  db.slots.all (fun s => !s.isBooked || nonCancelledCount db s.id == 1) &&
  db.slots.all (fun s => s.isBooked ||
    db.appointments.all (fun a => !(a.slotId == s.id) || !(activeStatus a.status)))

/-- Strengthening of the third clause of consistency: a free slot is
referenced by no non-cancelled appointment at all (also by no completed
or no_show one). -/
def freeSlotsUnreferenced (db : DB) : Bool :=
  db.slots.all (fun s => s.isBooked ||
    db.appointments.all (fun a => !(a.slotId == s.id) || a.status == Status.cancelled))

/-- Structural well-formedness of the database: slot ids and
appointment ids are primary keys, and the SERIAL counter is above every
existing appointment id. -/
def WF (db : DB) : Prop :=
  (db.slots.map Slot.id).Nodup ∧
  (db.appointments.map Appointment.id).Nodup ∧
  ∀ a ∈ db.appointments, a.id < db.nextApptId

/-- WF is decidable on concrete states. -/
instance (db : DB) : Decidable (WF db) := by
  unfold WF
  infer_instance

example : activeStatus Status.scheduled = true := by decide

example : isTerminal Status.completed = true := by decide

/-- Decidable equality for Except results, used to evaluate the
operations on concrete states. -/
instance instDecEqExcept {ε α : Type} [DecidableEq ε] [DecidableEq α] :
    DecidableEq (Except ε α)
  | Except.ok a, Except.ok b =>
      if h : a = b then isTrue (by rw [h])
      else isFalse (by intro hc; injection hc; contradiction)
  | Except.ok _, Except.error _ => isFalse (by intro h; exact Except.noConfusion h)
  | Except.error _, Except.ok _ => isFalse (by intro h; exact Except.noConfusion h)
  | Except.error e, Except.error f =>
      if h : e = f then isTrue (by rw [h])
      else isFalse (by intro hc; injection hc; contradiction)

/-! Concrete fixture: one doctor (doctors row 2, user account 20), one
patient (user 10), one admin (user 30), a second patient (user 11), one
slot (id 5) booked by appointment 1 of patient 10 in status scheduled.
This is the state reached by a successful booking. -/

/-- Fixture: the booking patient. -/
def pUser : User := { id := 10, role := Role.patient, isActive := true }

/-- Fixture: the user account of the doctor. -/
def dUser : User := { id := 20, role := Role.doctor, isActive := true }

/-- Fixture: an admin. -/
def aUser : User := { id := 30, role := Role.admin, isActive := true }

/-- Fixture: a patient who does not own appointment 1. -/
def p2User : User := { id := 11, role := Role.patient, isActive := true }

/-- Fixture: the doctors row. -/
def doc : Doctor :=
  { id := 2, userId := 20, isAvailable := true
    consultationModes := [Mode.online, Mode.offline], consultationFee := 50 }

/-- Fixture: slot 5 of doctor 2, booked. -/
def slot1 : Slot :=
  { id := 5, doctorId := 2, slotDate := 10000, slotTime := 540, isBooked := true }

/-- Fixture: appointment 1, patient 10 with doctor 2 on slot 5,
status scheduled. -/
def appt1 : Appointment :=
  { id := 1, patientId := 10, doctorId := 2, slotId := 5
    apptDate := 10000, apptTime := 540, mode := Mode.online, reason := none
    fee := 50, status := Status.scheduled, notes := none, prescription := none }

/-- Fixture: the database after a successful booking. -/
def baseDb : DB :=
  { users := [pUser, dUser, aUser, p2User]
    doctors := [doc]
    slots := [slot1]
    appointments := [appt1]
    notifications := []
    nextApptId := 2 }

/-- Fixture: baseDb with appointment 1 already completed. -/
def completedDb : DB :=
  { baseDb with appointments := [{ appt1 with status := Status.completed }] }

/-- Fixture: a status update request setting status to cancelled. -/
def cancelViaUpdate : UpdateRequest :=
  { newStatus := Status.cancelled, notes := none, prescription := none }

/-- Fixture: a status update request setting status to confirmed. -/
def confirmViaUpdate : UpdateRequest :=
  { newStatus := Status.confirmed, notes := none, prescription := none }

/-- C1 counterexample: from a well-formed consistent state, the owning
doctor sets the status of appointment 1 to cancelled through
updateStatus; the operation completes but the slot stays booked, so the
bidirectional slot/appointment invariant is violated after a completed
updateStatus. -/
theorem updateStatus_breaks_consistency_cex :
    WF baseDb ∧ consistent baseDb = true ∧
    (updateStatus baseDb dUser 1 cancelViaUpdate).2 =
      Except.ok (applyStatusUpdate cancelViaUpdate appt1) ∧
    consistent (updateStatus baseDb dUser 1 cancelViaUpdate).1 = false := by
  decide

/-- C2 counterexample: appointment 1 is in the terminal status
completed, yet updateStatus by the owning doctor to confirmed completes
successfully and changes the stored status, instead of failing with
InvalidStateError. -/
theorem updateStatus_from_terminal_succeeds_cex :
    (findAppointment completedDb 1).map Appointment.status =
      some Status.completed ∧
    isTerminal Status.completed = true ∧
    (updateStatus completedDb dUser 1 confirmViaUpdate).2 =
      Except.ok (applyStatusUpdate confirmViaUpdate
        { appt1 with status := Status.completed }) ∧
    (findAppointment (updateStatus completedDb dUser 1 confirmViaUpdate).1
        1).map Appointment.status = some Status.confirmed := by
  decide

/-- C7 counterexample: an admin cancels appointment 1; exactly one
cancellation notification is inserted and it goes to the patient
(user 10); the doctor account (user 20) receives none, contradicting
the claim that an admin cancellation notifies both parties. -/
theorem admin_cancel_notifies_patient_only_cex :
    (cancelAppointment baseDb aUser 1).2 = Except.ok () ∧
    (cancelAppointment baseDb aUser 1).1.notifications =
      [{ userId := 10, ntype := "cancellation", relatedAppointmentId := 1 }] ∧
    ((cancelAppointment baseDb aUser 1).1.notifications.all
      (fun n => !(n.userId == 20))) = true := by
  decide

/-- C8: the GET /:id route compares the doctor id of the appointment
with the req.doctor field, but its middleware chain never populates
req.doctor, so the owning doctor (user 20, doctors row 2, owner of
appointment 1) is denied with ForbiddenError while the owning patient
and an admin both succeed. -/
theorem getAppointment_denies_owning_doctor :
    appt1.doctorId = doc.id ∧ doc.userId = dUser.id ∧
    dUser.role = Role.doctor ∧
    findAppointment baseDb 1 = some appt1 ∧
    getAppointmentRoute baseDb dUser 1 = Except.error ApiError.forbidden ∧
    getAppointmentRoute baseDb pUser 1 = Except.ok appt1 ∧
    getAppointmentRoute baseDb aUser 1 = Except.ok appt1 ∧
    getAppointmentRoute baseDb p2User 1 = Except.error ApiError.forbidden := by
  decide

/-- C10: bookAppointment run by any authenticated principal whose role
is not patient is rejected by the requirePatient middleware with
ForbiddenError before validation, and the state is returned
unchanged. -/
theorem bookAppointment_requires_patient_role :
    ∀ (db : DB) (u : User) (req : BookRequest) (now : Nat),
      u.role ≠ Role.patient →
      bookAppointment db u req now = (db, Except.error ApiError.forbidden) := by
  intro db u req now h
  unfold bookAppointment
  rw [if_pos h]

/-- C10 witness: a doctor attempting to book is rejected. -/
theorem bookAppointment_requires_patient_role_witness :
    bookAppointment baseDb dUser
      { doctorId := 2, appointmentDate := 20000, appointmentTime := 600
        consultationMode := Mode.online, reasonForVisit := none } 0 =
      (baseDb, Except.error ApiError.forbidden) :=
  bookAppointment_requires_patient_role baseDb dUser
    { doctorId := 2, appointmentDate := 20000, appointmentTime := 600
      consultationMode := Mode.online, reasonForVisit := none } 0 (by decide)

/-- C9: a booking request whose requested instant (midnight of the
requested date plus the time of day) lies strictly before the server
time now fails Joi validation (the date is below the min now bound) and
the state is returned unchanged.  In particular a time of day earlier
than the current server time on the current date is rejected. -/
theorem bookAppointment_rejects_past_datetime :
    ∀ (db : DB) (u : User) (req : BookRequest) (now : Nat),
      u.role = Role.patient →
      req.appointmentDate + req.appointmentTime < now →
      bookAppointment db u req now =
        (db, Except.error ApiError.validationFailed) := by
  intro db u req now hrole hpast
  have hd : ¬ (now ≤ req.appointmentDate) := by omega
  have hv : validBookRequest req now = false := by
    simp [validBookRequest, decide_eq_false hd]
  unfold bookAppointment
  rw [if_neg (by simp [hrole]), if_pos hv]

/-- C9 witness: booking at 09:00 on the current date when the server
clock is already past 09:00 of that date is rejected. -/
theorem bookAppointment_rejects_past_datetime_witness :
    bookAppointment baseDb pUser
      { doctorId := 2, appointmentDate := 10000, appointmentTime := 540
        consultationMode := Mode.online, reasonForVisit := none } 10600 =
      (baseDb, Except.error ApiError.validationFailed) :=
  bookAppointment_rejects_past_datetime baseDb pUser
    { doctorId := 2, appointmentDate := 10000, appointmentTime := 540
      consultationMode := Mode.online, reasonForVisit := none } 10600
    (by decide) (by decide)

/-- Inversion of a successful bookAppointment: the requester is a
patient, the request is valid, a doctor and a free slot were found, and
the result is the committed booking state. -/
theorem book_ok_elim (db : DB) (u : User) (req : BookRequest) (now : Nat)
    (db2 : DB) (a : Appointment)
    (h : bookAppointment db u req now = (db2, Except.ok a)) :
    u.role = Role.patient ∧ validBookRequest req now = true ∧
    ∃ d s, findAvailableDoctor db req.doctorId = some d ∧
      d.consultationModes.contains req.consultationMode = true ∧
      findFreeSlot db req.doctorId req.appointmentDate req.appointmentTime =
        some s ∧
      a = mkBookedAppt db u req d s ∧ db2 = bookResultDb db u req d s := by
  unfold bookAppointment at h
  split at h
  next => exact absurd (congrArg Prod.snd h) (by simp)
  next h1 =>
    split at h
    next => exact absurd (congrArg Prod.snd h) (by simp)
    next h2 =>
      split at h
      next => exact absurd (congrArg Prod.snd h) (by simp)
      next d hd =>
        split at h
        next => exact absurd (congrArg Prod.snd h) (by simp)
        next h3 =>
          split at h
          next => exact absurd (congrArg Prod.snd h) (by simp)
          next s hs =>
            rw [Prod.mk.injEq] at h
            obtain ⟨hdb, ha⟩ := h
            injection ha with ha
            refine ⟨not_not.mp h1, ?_, d, s, hd, ?_, hs, ha.symm, hdb.symm⟩
            · cases hvb : validBookRequest req now
              · exact absurd hvb h2
              · rfl
            · cases hcc : d.consultationModes.contains req.consultationMode
              · exact absurd hcc h3
              · rfl

/-- Inversion of a successful cancelAppointment: the appointment and
its doctor were found, the requester passed canCancel, the status was
active, and the result is the committed cancellation state. -/
theorem cancel_ok_elim (db : DB) (u : User) (apptId : Nat) (db2 : DB)
    (h : cancelAppointment db u apptId = (db2, Except.ok ())) :
    ∃ appt apptDoctor,
      findAppointment db apptId = some appt ∧
      findDoctorById db appt.doctorId = some apptDoctor ∧
      canCancel u appt apptDoctor = true ∧
      activeStatus appt.status = true ∧
      db2 = cancelResultDb db u apptId appt apptDoctor := by
  unfold cancelAppointment at h
  split at h
  next => exact absurd (congrArg Prod.snd h) (by simp)
  next appt ha =>
    split at h
    next => exact absurd (congrArg Prod.snd h) (by simp)
    next apptDoctor hd =>
      split at h
      next => exact absurd (congrArg Prod.snd h) (by simp)
      next hc =>
        split at h
        next => exact absurd (congrArg Prod.snd h) (by simp)
        next hst =>
          rw [Prod.mk.injEq] at h
          refine ⟨appt, apptDoctor, ha, hd, ?_, ?_, h.1.symm⟩
          · cases hcc : canCancel u appt apptDoctor
            · exact absurd hcc hc
            · rfl
          · unfold activeStatus
            cases hss : (appt.status == Status.scheduled ||
                appt.status == Status.confirmed)
            · exact absurd hss hst
            · rfl

/-- Inversion of a successful updateStatus: the appointment was found
and the result is the updated appointment and state.  No condition on
the current status appears, because the handler checks none. -/
theorem upd_ok_elim (db : DB) (u : User) (apptId : Nat) (req : UpdateRequest)
    (db2 : DB) (x : Appointment)
    (h : updateStatus db u apptId req = (db2, Except.ok x)) :
    ∃ appt, findAppointment db apptId = some appt ∧
      x = applyStatusUpdate req appt ∧ db2 = updResultDb db apptId appt req := by
  unfold updateStatus at h
  split at h
  next => exact absurd (congrArg Prod.snd h) (by simp)
  next =>
    split at h
    next => exact absurd (congrArg Prod.snd h) (by simp)
    next prof hp =>
      split at h
      next => exact absurd (congrArg Prod.snd h) (by simp)
      next =>
        split at h
        next => exact absurd (congrArg Prod.snd h) (by simp)
        next =>
          split at h
          next => exact absurd (congrArg Prod.snd h) (by simp)
          next appt ha =>
            split at h
            next => exact absurd (congrArg Prod.snd h) (by simp)
            next apptDoctor hd =>
              split at h
              next => exact absurd (congrArg Prod.snd h) (by simp)
              next =>
                rw [Prod.mk.injEq] at h
                obtain ⟨hdb, hx⟩ := h
                injection hx with hx
                exact ⟨appt, ha, hx.symm, hdb.symm⟩

/-- A successful updateStatus changes no consultation fee of any stored
appointment. -/
theorem upd_preserves_fees (db : DB) (u : User) (apptId : Nat)
    (req : UpdateRequest) (db2 : DB) (x : Appointment)
    (h : updateStatus db u apptId req = (db2, Except.ok x)) :
    db2.appointments.map (fun b => (b.id, b.fee)) =
      db.appointments.map (fun b => (b.id, b.fee)) := by
  obtain ⟨appt, -, -, hdb⟩ := upd_ok_elim db u apptId req db2 x h
  subst hdb
  unfold updResultDb
  simp only [List.map_map]
  apply List.map_congr_left
  intro a _
  by_cases hid : a.id = apptId <;> simp [hid, applyStatusUpdate]

/-- A successful cancelAppointment changes no consultation fee of any
stored appointment. -/
theorem cancel_preserves_fees (db : DB) (u : User) (apptId : Nat) (db2 : DB)
    (h : cancelAppointment db u apptId = (db2, Except.ok ())) :
    db2.appointments.map (fun b => (b.id, b.fee)) =
      db.appointments.map (fun b => (b.id, b.fee)) := by
  obtain ⟨appt, apptDoctor, -, -, -, -, hdb⟩ := cancel_ok_elim db u apptId db2 h
  subst hdb
  unfold cancelResultDb cancelStatusUpdate
  simp only [List.map_map]
  apply List.map_congr_left
  intro a _
  by_cases hid : a.id = apptId <;> simp [hid]

/-- find? by id commutes with a map that preserves ids. -/
theorem find_map_pres_id {g : Appointment → Appointment}
    (hg : ∀ a, (g a).id = a.id) (l : List Appointment) (i : Nat) :
    (l.map g).find? (fun a => a.id == i) =
      (l.find? (fun a => a.id == i)).map g := by
  induction l with
  | nil => rfl
  | cons a t ih =>
    by_cases hpa : (a.id == i) = true
    · simp [List.find?_cons, hg, hpa]
    · simp only [List.map_cons, List.find?_cons, hg, hpa]
      simpa [hg, hpa] using ih

/-- C2 (amended): from any terminal status, cancelAppointment by an
authorized requester fails with InvalidStateError (and, returning the
input state, leaves the appointment unchanged), while updateStatus
applies no terminal-state guard at all: it never produces
InvalidStateError. -/
theorem terminal_status_guard :
    (∀ (db : DB) (u : User) (apptId : Nat) (appt : Appointment) (d : Doctor),
      findAppointment db apptId = some appt →
      findDoctorById db appt.doctorId = some d →
      canCancel u appt d = true →
      isTerminal appt.status = true →
      cancelAppointment db u apptId = (db, Except.error ApiError.invalidState)) ∧
    (∀ (db : DB) (u : User) (apptId : Nat) (req : UpdateRequest),
      (updateStatus db u apptId req).2 ≠ Except.error ApiError.invalidState) := by
  constructor
  · intro db u apptId appt d ha hd hc hterm
    have hst : (appt.status == Status.scheduled ||
        appt.status == Status.confirmed) = false := by
      cases hs : appt.status <;> simp_all [isTerminal]
    simp [cancelAppointment, ha, hd, hc, hst]
  · intro db u apptId req h
    unfold updateStatus at h
    repeat' split at h
    all_goals simp at h

/-- C2 witness: appointment 1 of completedDb is completed; an admin
cancellation attempt fails with InvalidStateError, and a concrete
updateStatus call does not produce InvalidStateError. -/
theorem terminal_status_guard_witness :
    cancelAppointment completedDb aUser 1 =
      (completedDb, Except.error ApiError.invalidState) ∧
    (updateStatus baseDb dUser 1 confirmViaUpdate).2 ≠
      Except.error ApiError.invalidState :=
  ⟨terminal_status_guard.1 completedDb aUser 1
      { appt1 with status := Status.completed } doc
      (by decide) (by decide) (by decide) (by decide),
   terminal_status_guard.2 baseDb dUser 1 confirmViaUpdate⟩

/-- C5: bookAppointment fails with a NotAvailableError (doctor absent,
inactive or unavailable; or unsupported mode), with SlotConflictError
when the slot is booked or non-existent, and on any failure the state
is returned unchanged (the transaction rolls back). -/
theorem bookAppointment_failure_taxonomy :
    ∀ (db : DB) (u : User) (req : BookRequest) (now : Nat),
      (u.role = Role.patient → validBookRequest req now = true →
        (findAvailableDoctor db req.doctorId = none →
          ∃ e, bookAppointment db u req now = (db, Except.error e) ∧
            e.isNotAvailableError = true) ∧
        (∀ d, findAvailableDoctor db req.doctorId = some d →
          d.consultationModes.contains req.consultationMode = false →
          ∃ e, bookAppointment db u req now = (db, Except.error e) ∧
            e.isNotAvailableError = true) ∧
        (∀ d, findAvailableDoctor db req.doctorId = some d →
          d.consultationModes.contains req.consultationMode = true →
          findFreeSlot db req.doctorId req.appointmentDate
            req.appointmentTime = none →
          bookAppointment db u req now =
            (db, Except.error ApiError.slotConflict))) ∧
      (∀ (db2 : DB) (e : ApiError),
        bookAppointment db u req now = (db2, Except.error e) → db2 = db) := by
  intro db u req now
  constructor
  · intro hrole hval
    have hrole2 : ¬ u.role ≠ Role.patient := by simp [hrole]
    have hval2 : ¬ validBookRequest req now = false := by simp [hval]
    refine ⟨?_, ?_, ?_⟩
    · intro hd
      refine ⟨ApiError.doctorNotAvailable, ?_, rfl⟩
      unfold bookAppointment
      rw [if_neg hrole2, if_neg hval2, hd]
    · intro d hd hm
      refine ⟨ApiError.modeNotSupported, ?_, rfl⟩
      unfold bookAppointment
      rw [if_neg hrole2, if_neg hval2]
      simp only [hd]
      rw [if_pos hm]
    · intro d hd hm hs
      have hm2 : ¬ d.consultationModes.contains req.consultationMode = false := by
        rw [hm]
        simp
      unfold bookAppointment
      rw [if_neg hrole2, if_neg hval2]
      simp only [hd]
      rw [if_neg hm2]
      simp only [hs]
  · intro db2 e h
    unfold bookAppointment at h
    repeat' split at h
    all_goals rw [Prod.mk.injEq] at h
    all_goals first
      | exact h.1.symm
      | exact absurd h.2 (by simp)

/-- C5 witness: with no doctors row, booking fails with a
NotAvailableError and the state is unchanged. -/
theorem bookAppointment_failure_taxonomy_witness :
    ∃ e, bookAppointment { baseDb with doctors := [] } pUser
        { doctorId := 2, appointmentDate := 20000, appointmentTime := 600
          consultationMode := Mode.online, reasonForVisit := none } 0 =
      ({ baseDb with doctors := [] }, Except.error e) ∧
      e.isNotAvailableError = true :=
  ((bookAppointment_failure_taxonomy { baseDb with doctors := [] } pUser
      { doctorId := 2, appointmentDate := 20000, appointmentTime := 600
        consultationMode := Mode.online, reasonForVisit := none } 0).1
    (by decide) (by decide)).1 (by decide)

/-- The cancellation UPDATE commutes with lookup by id. -/
theorem cancelStatusUpdate_find (l : List Appointment) (i j : Nat) :
    (cancelStatusUpdate l i).find? (fun a => a.id == j) =
      (l.find? (fun a => a.id == j)).map
        (fun a => if a.id == i then { a with status := Status.cancelled }
                  else a) := by
  unfold cancelStatusUpdate
  apply find_map_pres_id
  intro a
  split <;> rfl

/-- C4: a successful bookAppointment creates exactly one new
appointment in status scheduled linked to the reserved free slot,
snapshots the fee of the doctor, marks the slot booked, and emits
exactly two notifications (confirmation to the patient, new-appointment
alert to the doctor); the fee snapshot is immutable under the other
operations. -/
theorem bookAppointment_success_postcondition :
    ∀ (db : DB) (u : User) (req : BookRequest) (now : Nat) (db2 : DB)
      (a : Appointment),
      bookAppointment db u req now = (db2, Except.ok a) →
      a.status = Status.scheduled ∧
      db2.appointments = db.appointments ++ [a] ∧
      (∃ d, findAvailableDoctor db req.doctorId = some d ∧
        a.fee = d.consultationFee ∧
        db2.notifications = db.notifications ++
          [ { userId := u.id, ntype := "confirmation",
              relatedAppointmentId := a.id },
            { userId := d.userId, ntype := "new_appointment",
              relatedAppointmentId := a.id } ]) ∧
      (∃ s, findFreeSlot db req.doctorId req.appointmentDate
          req.appointmentTime = some s ∧
        a.slotId = s.id ∧ s.isBooked = false ∧
        db2.slots = bookSlotUpdate db.slots s.id ∧
        apptSlotBooked db2 a = true) ∧
      (∀ (db1 : DB) (u1 : User) (i1 : Nat) (r1 : UpdateRequest) (db3 : DB)
        (x : Appointment),
        updateStatus db1 u1 i1 r1 = (db3, Except.ok x) →
        db3.appointments.map (fun b => (b.id, b.fee)) =
          db1.appointments.map (fun b => (b.id, b.fee))) ∧
      (∀ (db1 : DB) (u1 : User) (i1 : Nat) (db3 : DB),
        cancelAppointment db1 u1 i1 = (db3, Except.ok ()) →
        db3.appointments.map (fun b => (b.id, b.fee)) =
          db1.appointments.map (fun b => (b.id, b.fee))) := by
  intro db u req now db2 a h
  obtain ⟨hrole, hval, d, s, hd, hm, hs, hae, hdbe⟩ :=
    book_ok_elim db u req now db2 a h
  subst hae
  subst hdbe
  have hs2 : db.slots.find? (fun t => t.doctorId == req.doctorId &&
      t.slotDate == req.appointmentDate &&
      t.slotTime == req.appointmentTime && !t.isBooked) = some s := hs
  have hsmem : s ∈ db.slots := List.mem_of_find?_eq_some hs2
  have hsp := List.find?_some hs2
  have hsfree : s.isBooked = false := by
    simp only [Bool.and_eq_true, Bool.not_eq_true'] at hsp
    exact hsp.2
  refine ⟨rfl, rfl, ⟨d, hd, rfl, rfl⟩, ⟨s, hs, rfl, hsfree, rfl, ?_⟩,
    upd_preserves_fees, cancel_preserves_fees⟩
  simp only [apptSlotBooked, bookResultDb, bookSlotUpdate, mkBookedAppt]
  rw [List.any_eq_true]
  refine ⟨if s.id == s.id then { s with isBooked := true } else s,
    List.mem_map.mpr ⟨s, hsmem, rfl⟩, ?_⟩
  simp

/-- C4 witness slot: a free slot of doctor 2. -/
def freeSlot6 : Slot :=
  { id := 6, doctorId := 2, slotDate := 20000, slotTime := 600, isBooked := false }

/-- C4 witness state: one free slot and no appointments. -/
def freeDb : DB :=
  { users := [pUser, dUser, aUser, p2User], doctors := [doc]
    slots := [freeSlot6], appointments := [], notifications := []
    nextApptId := 1 }

/-- C4 witness request. -/
def bookReq : BookRequest :=
  { doctorId := 2, appointmentDate := 20000, appointmentTime := 600
    consultationMode := Mode.online, reasonForVisit := none }

/-- C4 witness: the appointment created by a concrete successful booking
is scheduled. -/
theorem bookAppointment_success_postcondition_witness :
    (mkBookedAppt freeDb pUser bookReq doc freeSlot6).status =
      Status.scheduled :=
  (bookAppointment_success_postcondition freeDb pUser bookReq 0
    (bookResultDb freeDb pUser bookReq doc freeSlot6)
    (mkBookedAppt freeDb pUser bookReq doc freeSlot6) (by decide)).1

/-- C6: cancelAppointment fails NotFound when the appointment is
absent, Forbidden when the requester fails canCancel (in particular a
non-owner patient), InvalidState when the status is not scheduled or
confirmed; otherwise (owning patient, owning doctor or admin all pass
canCancel) it commits: the appointment becomes cancelled and its slot
is released. -/
theorem cancelAppointment_auth_taxonomy :
    ∀ (db : DB) (u : User) (apptId : Nat),
      (findAppointment db apptId = none →
        cancelAppointment db u apptId = (db, Except.error ApiError.notFound)) ∧
      ∀ (appt : Appointment) (d : Doctor),
        findAppointment db apptId = some appt →
        findDoctorById db appt.doctorId = some d →
        (u.role = Role.patient → appt.patientId ≠ u.id →
          canCancel u appt d = false) ∧
        (u.role = Role.doctor → d.userId = u.id → canCancel u appt d = true) ∧
        (u.role = Role.admin → canCancel u appt d = true) ∧
        (canCancel u appt d = false →
          cancelAppointment db u apptId =
            (db, Except.error ApiError.forbidden)) ∧
        (canCancel u appt d = true → activeStatus appt.status = false →
          cancelAppointment db u apptId =
            (db, Except.error ApiError.invalidState)) ∧
        (canCancel u appt d = true → activeStatus appt.status = true →
          cancelAppointment db u apptId =
            (cancelResultDb db u apptId appt d, Except.ok ()) ∧
          findAppointment (cancelResultDb db u apptId appt d) apptId =
            some { appt with status := Status.cancelled } ∧
          ∀ s ∈ (cancelResultDb db u apptId appt d).slots,
            s.id = appt.slotId → s.isBooked = false) := by
  intro db u apptId
  constructor
  · intro h
    simp [cancelAppointment, h]
  · intro appt d ha hd
    refine ⟨?_, ?_, ?_, ?_, ?_, ?_⟩
    · intro hrole hne
      simp [canCancel, hrole, hne]
    · intro hrole heq
      simp [canCancel, hrole, heq]
    · intro hrole
      simp [canCancel, hrole]
    · intro hc
      simp [cancelAppointment, ha, hd, hc]
    · intro hc hst
      have hst2 : (appt.status == Status.scheduled ||
          appt.status == Status.confirmed) = false := hst
      simp [cancelAppointment, ha, hd, hc, hst2]
    · intro hc hst
      have hst2 : (appt.status == Status.scheduled ||
          appt.status == Status.confirmed) = true := hst
      have hpred : (appt.id == apptId) = true :=
        @List.find?_some Appointment (fun a => a.id == apptId) appt
          db.appointments ha
      refine ⟨?_, ?_, ?_⟩
      · simp [cancelAppointment, ha, hd, hc, hst2]
      · have ha2 : db.appointments.find? (fun a => a.id == apptId) =
            some appt := ha
        show (cancelStatusUpdate db.appointments apptId).find?
          (fun a => a.id == apptId) = some { appt with status := Status.cancelled }
        have hpred2 : appt.id = apptId := by simpa using hpred
        rw [cancelStatusUpdate_find, ha2]
        simp [hpred2]
      · intro s hsm hsid
        obtain ⟨t, ht, rfl⟩ := List.mem_map.mp hsm
        by_cases hts : t.id = appt.slotId
        · rw [if_pos (by simp [hts])]
        · rw [if_neg (by simp [hts])] at hsid ⊢
          exact absurd hsid hts

/-- C6 witness: a patient who does not own appointment 1 is rejected
with ForbiddenError. -/
theorem cancelAppointment_auth_taxonomy_witness :
    cancelAppointment baseDb p2User 1 =
      (baseDb, Except.error ApiError.forbidden) :=
  ((cancelAppointment_auth_taxonomy baseDb p2User 1).2 appt1 doc
    (by decide) (by decide)).2.2.2.1 (by decide)

/-- C7 (amended): every successful cancellation inserts exactly one
cancellation notification: to the doctor when the requester is the
patient, and to the patient when the requester is the doctor or an
admin (an admin cancellation does not notify both parties). -/
theorem cancel_notifies_counterparty :
    ∀ (db : DB) (u : User) (apptId : Nat) (db2 : DB),
      cancelAppointment db u apptId = (db2, Except.ok ()) →
      ∃ appt apptDoctor,
        findAppointment db apptId = some appt ∧
        findDoctorById db appt.doctorId = some apptDoctor ∧
        db2.notifications = db.notifications ++
          [ if u.role = Role.patient then
              { userId := apptDoctor.userId, ntype := "cancellation",
                relatedAppointmentId := apptId }
            else
              { userId := appt.patientId, ntype := "cancellation",
                relatedAppointmentId := apptId } ] := by
  intro db u apptId db2 h
  obtain ⟨appt, apptDoctor, ha, hd, -, -, hdb⟩ := cancel_ok_elim db u apptId db2 h
  subst hdb
  refine ⟨appt, apptDoctor, ha, hd, ?_⟩
  unfold cancelResultDb cancelNotif
  by_cases hr : u.role = Role.patient
  · simp [hr]
  · have hr2 : (u.role == Role.patient) = false := by simp [hr]
    simp [hr, hr2]

/-- C7 witness: a concrete patient cancellation notifies the doctor. -/
theorem cancel_notifies_counterparty_witness :
    ∃ appt apptDoctor,
      findAppointment baseDb 1 = some appt ∧
      findDoctorById baseDb appt.doctorId = some apptDoctor ∧
      (cancelResultDb baseDb pUser 1 appt1 doc).notifications =
        baseDb.notifications ++
        [ if pUser.role = Role.patient then
            { userId := apptDoctor.userId, ntype := "cancellation",
              relatedAppointmentId := 1 }
          else
            { userId := appt.patientId, ntype := "cancellation",
              relatedAppointmentId := 1 } ] :=
  cancel_notifies_counterparty baseDb pUser 1
    (cancelResultDb baseDb pUser 1 appt1 doc) (by decide)

/-- Boolean implication reading of a disjunction with negated guard. -/
theorem bool_imp_iff (x y : Bool) : (!x || y) = true ↔ (x = true → y = true) := by
  cases x <;> cases y <;> simp

/-- Boolean implication reading of a plain disjunction. -/
theorem bool_imp_iff2 (x y : Bool) : (x || y) = true ↔ (x = false → y = true) := by
  cases x <;> cases y <;> simp

/-- Two distinct members both satisfying a predicate force a count of
at least two. -/
theorem two_le_countP_of_mem_ne {α : Type} (p : α → Bool) (a b : α)
    (hne : a ≠ b) (hpa : p a = true) (hpb : p b = true) :
    ∀ l : List α, a ∈ l → b ∈ l → 2 ≤ l.countP p := by
  intro l
  induction l with
  | nil => intro ha; cases ha
  | cons x t ih =>
    intro ha hb
    rw [List.countP_cons]
    rcases List.mem_cons.mp ha with rfl | hat
    · rcases List.mem_cons.mp hb with rfl | hbt
      · exact absurd rfl hne
      · have h1 : 0 < t.countP p := List.countP_pos_iff.mpr ⟨b, hbt, hpb⟩
        rw [if_pos hpa]
        omega
    · rcases List.mem_cons.mp hb with rfl | hbt
      · have h1 : 0 < t.countP p := List.countP_pos_iff.mpr ⟨a, hat, hpa⟩
        rw [if_pos hpb]
        omega
      · have h2 := ih hat hbt
        omega

/-- First clause of the consistency invariant, pointwise. -/
theorem consistent_elim1 (db : DB) (h : consistent db = true) :
    ∀ a ∈ db.appointments, activeStatus a.status = true →
      apptSlotBooked db a = true := by
  unfold consistent at h
  rw [Bool.and_eq_true, Bool.and_eq_true] at h
  intro a ha
  have h1 := List.all_eq_true.mp h.1.1 a ha
  rw [bool_imp_iff] at h1
  exact h1

/-- Second clause of the consistency invariant, pointwise. -/
theorem consistent_elim2 (db : DB) (h : consistent db = true) :
    ∀ s ∈ db.slots, s.isBooked = true → nonCancelledCount db s.id = 1 := by
  unfold consistent at h
  rw [Bool.and_eq_true, Bool.and_eq_true] at h
  intro s hs hb
  have h1 := List.all_eq_true.mp h.1.2 s hs
  rw [bool_imp_iff] at h1
  exact beq_iff_eq.mp (h1 hb)

/-- Third clause of the consistency invariant, pointwise. -/
theorem consistent_elim3 (db : DB) (h : consistent db = true) :
    ∀ s ∈ db.slots, s.isBooked = false →
      ∀ a ∈ db.appointments, a.slotId = s.id → activeStatus a.status = false := by
  unfold consistent at h
  rw [Bool.and_eq_true, Bool.and_eq_true] at h
  intro s hs hb a ha hsid
  have h1 := List.all_eq_true.mp h.2 s hs
  rw [bool_imp_iff2] at h1
  have h2 := List.all_eq_true.mp (h1 hb) a ha
  rw [bool_imp_iff] at h2
  have h3 := h2 (beq_iff_eq.mpr hsid)
  rwa [Bool.not_eq_true'] at h3

/-- Introduction rule for the consistency invariant. -/
theorem consistent_intro (db : DB)
    (h1 : ∀ a ∈ db.appointments, activeStatus a.status = true →
      apptSlotBooked db a = true)
    (h2 : ∀ s ∈ db.slots, s.isBooked = true → nonCancelledCount db s.id = 1)
    (h3 : ∀ s ∈ db.slots, s.isBooked = false →
      ∀ a ∈ db.appointments, a.slotId = s.id → activeStatus a.status = false) :
    consistent db = true := by
  unfold consistent
  rw [Bool.and_eq_true, Bool.and_eq_true]
  refine ⟨⟨?_, ?_⟩, ?_⟩
  · rw [List.all_eq_true]
    intro a ha
    rw [bool_imp_iff]
    exact h1 a ha
  · rw [List.all_eq_true]
    intro s hs
    rw [bool_imp_iff]
    intro hb
    rw [beq_iff_eq]
    exact h2 s hs hb
  · rw [List.all_eq_true]
    intro s hs
    rw [bool_imp_iff2]
    intro hb
    rw [List.all_eq_true]
    intro a ha
    rw [bool_imp_iff]
    intro hsid
    rw [Bool.not_eq_true']
    exact h3 s hs hb a ha (beq_iff_eq.mp hsid)

/-- Pointwise reading of freeSlotsUnreferenced. -/
theorem freeUnref_elim (db : DB) (h : freeSlotsUnreferenced db = true) :
    ∀ s ∈ db.slots, s.isBooked = false →
      ∀ a ∈ db.appointments, a.slotId = s.id → a.status = Status.cancelled := by
  unfold freeSlotsUnreferenced at h
  intro s hs hb a ha hsid
  have h1 := List.all_eq_true.mp h s hs
  rw [bool_imp_iff2] at h1
  have h2 := List.all_eq_true.mp (h1 hb) a ha
  rw [bool_imp_iff] at h2
  exact beq_iff_eq.mp (h2 (beq_iff_eq.mpr hsid))

/-- Introduction rule for freeSlotsUnreferenced. -/
theorem freeUnref_intro (db : DB)
    (h : ∀ s ∈ db.slots, s.isBooked = false →
      ∀ a ∈ db.appointments, a.slotId = s.id → a.status = Status.cancelled) :
    freeSlotsUnreferenced db = true := by
  unfold freeSlotsUnreferenced
  rw [List.all_eq_true]
  intro s hs
  rw [bool_imp_iff2]
  intro hb
  rw [List.all_eq_true]
  intro a ha
  rw [bool_imp_iff]
  intro hsid
  rw [beq_iff_eq]
  exact h s hs hb a ha (beq_iff_eq.mp hsid)

/-- An active status is not cancelled. -/
theorem activeStatus_not_cancelled (st : Status)
    (h : activeStatus st = true) : (st == Status.cancelled) = false := by
  cases st <;> simp_all [activeStatus]

/-- A successful booking preserves well-formedness, the bidirectional
consistency invariant, and the free-slots-unreferenced strengthening. -/
theorem book_preserves_inv (db : DB) (u : User) (req : BookRequest)
    (now : Nat) (db2 : DB) (a : Appointment)
    (hwf : WF db) (hc : consistent db = true)
    (hf : freeSlotsUnreferenced db = true)
    (h : bookAppointment db u req now = (db2, Except.ok a)) :
    WF db2 ∧ consistent db2 = true ∧ freeSlotsUnreferenced db2 = true := by
  obtain ⟨hrole, hval, d, s, hd, hm, hs, hae, hdbe⟩ :=
    book_ok_elim db u req now db2 a h
  subst hae
  subst hdbe
  have hs2 : db.slots.find? (fun t => t.doctorId == req.doctorId &&
      t.slotDate == req.appointmentDate &&
      t.slotTime == req.appointmentTime && !t.isBooked) = some s := hs
  have hsmem : s ∈ db.slots := List.mem_of_find?_eq_some hs2
  have hsfree : s.isBooked = false := by
    have hsp := List.find?_some hs2
    simp only [Bool.and_eq_true, Bool.not_eq_true'] at hsp
    exact hsp.2
  obtain ⟨hnds, hnda, hbound⟩ := hwf
  have hc1 := consistent_elim1 db hc
  have hc2 := consistent_elim2 db hc
  have hfr := freeUnref_elim db hf
  have huniq : ∀ t ∈ db.slots, t.id = s.id → t = s := fun t ht hid =>
    List.inj_on_of_nodup_map hnds ht hsmem hid
  have hslotids : (bookSlotUpdate db.slots s.id).map Slot.id =
      db.slots.map Slot.id := by
    unfold bookSlotUpdate
    rw [List.map_map]
    apply List.map_congr_left
    intro t _
    by_cases h1 : t.id = s.id <;> simp [h1]
  have hfreshid : db.nextApptId ∉ db.appointments.map Appointment.id := by
    intro hmem2
    obtain ⟨b, hb, hbid⟩ := List.mem_map.mp hmem2
    have := hbound b hb
    omega
  -- boosting any booked-slot witness through the slot update
  have hbookedAny : ∀ sid : Nat,
      (db.slots.any (fun t => t.id == sid && t.isBooked)) = true →
      ((bookSlotUpdate db.slots s.id).any
        (fun t => t.id == sid && t.isBooked)) = true := by
    intro sid hany
    rw [List.any_eq_true] at hany ⊢
    obtain ⟨t, ht, hpt⟩ := hany
    simp only [Bool.and_eq_true, beq_iff_eq] at hpt
    refine ⟨if t.id == s.id then { t with isBooked := true } else t,
      List.mem_map.mpr ⟨t, ht, rfl⟩, ?_⟩
    by_cases h1 : t.id = s.id
    · rw [if_pos (by simp [h1])]
      simp [hpt.1]
    · rw [if_neg (by simp [h1])]
      simp [hpt.1, hpt.2]
  have hsbooked : ((bookSlotUpdate db.slots s.id).any
      (fun t => t.id == s.id && t.isBooked)) = true := by
    rw [List.any_eq_true]
    refine ⟨if s.id == s.id then { s with isBooked := true } else s,
      List.mem_map.mpr ⟨s, hsmem, rfl⟩, ?_⟩
    simp
  -- count of non-cancelled referencers after the insert
  have hcountNew : ∀ sid : Nat,
      nonCancelledCount (bookResultDb db u req d s) sid =
        nonCancelledCount db sid + (if s.id = sid then 1 else 0) := by
    intro sid
    show (db.appointments ++ [mkBookedAppt db u req d s]).countP (refP sid) = _
    rw [List.countP_append]
    have hone : List.countP (refP sid) [mkBookedAppt db u req d s] =
        (if s.id = sid then 1 else 0) := by
      by_cases h1 : s.id = sid <;>
        simp [refP, mkBookedAppt, List.countP_cons, h1]
    rw [hone]
    rfl
  have hzero : nonCancelledCount db s.id = 0 := by
    unfold nonCancelledCount
    rw [List.countP_eq_zero]
    intro a2 ha2 hp
    simp only [refP, Bool.and_eq_true, beq_iff_eq, Bool.not_eq_true',
      beq_eq_false_iff_ne] at hp
    exact hp.2 (hfr s hsmem hsfree a2 ha2 hp.1)
  refine ⟨⟨?_, ?_, ?_⟩, ?_, ?_⟩
  · -- slot ids stay nodup
    show ((bookSlotUpdate db.slots s.id).map Slot.id).Nodup
    rw [hslotids]
    exact hnds
  · -- appointment ids stay nodup
    show ((db.appointments ++ [mkBookedAppt db u req d s]).map
      Appointment.id).Nodup
    rw [List.map_append, List.nodup_append]
    refine ⟨hnda, List.nodup_singleton _, ?_⟩
    intro x hx hx2
    simp only [List.map_cons, List.map_nil, List.mem_singleton] at hx2
    subst hx2
    exact hfreshid hx
  · -- the counter stays above every id
    intro b hb
    rcases List.mem_append.mp hb with hold | hnew
    · have := hbound b hold
      show b.id < db.nextApptId + 1
      omega
    · simp only [List.mem_singleton] at hnew
      subst hnew
      show db.nextApptId < db.nextApptId + 1
      omega
  · -- consistency
    apply consistent_intro
    · intro a2 ha2 hact
      rcases List.mem_append.mp ha2 with hold | hnew
      · exact hbookedAny a2.slotId (hc1 a2 hold hact)
      · simp only [List.mem_singleton] at hnew
        subst hnew
        exact hsbooked
    · intro t2 ht2 hbk
      obtain ⟨t, ht, rfl⟩ := List.mem_map.mp ht2
      by_cases h1 : t.id = s.id
      · have hts : t = s := huniq t ht h1
        subst hts
        have he : (if t.id == t.id then { t with isBooked := true } else t) =
            { t with isBooked := true } := by simp
        rw [he]
        show nonCancelledCount (bookResultDb db u req d t) t.id = 1
        rw [hcountNew t.id, hzero]
        simp
      · have he : (if t.id == s.id then { t with isBooked := true } else t) =
            t := by simp [h1]
        rw [he] at hbk ⊢
        rw [hcountNew t.id, hc2 t ht hbk, if_neg (fun hh => h1 hh.symm)]
    · -- derived from the free-unreferenced strengthening below
      intro t2 ht2 hfree a2 ha2 hsid
      obtain ⟨t, ht, rfl⟩ := List.mem_map.mp ht2
      by_cases h1 : t.id = s.id
      · have he : (if t.id == s.id then { t with isBooked := true } else t) =
            { t with isBooked := true } := by simp [h1]
        rw [he] at hfree
        simp at hfree
      · have he : (if t.id == s.id then { t with isBooked := true } else t) =
            t := by simp [h1]
        rw [he] at hfree hsid
        rcases List.mem_append.mp ha2 with hold | hnew
        · rw [hfr t ht hfree a2 hold hsid]
          rfl
        · simp only [List.mem_singleton] at hnew
          subst hnew
          have hss : s.id = t.id := hsid
          exact absurd hss.symm h1
  · -- free slots stay unreferenced by non-cancelled appointments
    apply freeUnref_intro
    intro t2 ht2 hfree a2 ha2 hsid
    obtain ⟨t, ht, rfl⟩ := List.mem_map.mp ht2
    by_cases h1 : t.id = s.id
    · have he : (if t.id == s.id then { t with isBooked := true } else t) =
          { t with isBooked := true } := by simp [h1]
      rw [he] at hfree
      simp at hfree
    · have he : (if t.id == s.id then { t with isBooked := true } else t) =
          t := by simp [h1]
      rw [he] at hfree hsid
      rcases List.mem_append.mp ha2 with hold | hnew
      · exact hfr t ht hfree a2 hold hsid
      · simp only [List.mem_singleton] at hnew
        subst hnew
        have hss : s.id = t.id := hsid
        exact absurd hss.symm h1

/-- A successful cancellation preserves well-formedness, the
bidirectional consistency invariant, and the free-slots-unreferenced
strengthening. -/
theorem cancel_preserves_inv (db : DB) (u : User) (apptId : Nat) (db2 : DB)
    (hwf : WF db) (hc : consistent db = true)
    (hf : freeSlotsUnreferenced db = true)
    (h : cancelAppointment db u apptId = (db2, Except.ok ())) :
    WF db2 ∧ consistent db2 = true ∧ freeSlotsUnreferenced db2 = true := by
  obtain ⟨appt, apptDoctor, ha, hd, hcc, hact, hdbe⟩ :=
    cancel_ok_elim db u apptId db2 h
  subst hdbe
  obtain ⟨hnds, hnda, hbound⟩ := hwf
  have hc1 := consistent_elim1 db hc
  have hc2 := consistent_elim2 db hc
  have hfr := freeUnref_elim db hf
  have ha2 : db.appointments.find? (fun x => x.id == apptId) = some appt := ha
  have hamem : appt ∈ db.appointments := List.mem_of_find?_eq_some ha2
  have haid : appt.id = apptId := by
    simpa using
      (@List.find?_some Appointment (fun x => x.id == apptId) appt
        db.appointments ha2)
  have happuniq : ∀ b ∈ db.appointments, b.id = apptId → b = appt := by
    intro b hb hbid
    exact List.inj_on_of_nodup_map hnda hb hamem (hbid.trans haid.symm)
  have hanc : (appt.status == Status.cancelled) = false :=
    activeStatus_not_cancelled appt.status hact
  -- the slot of the cancelled appointment was booked before
  have hsb := hc1 appt hamem hact
  rw [show apptSlotBooked db appt =
      db.slots.any (fun t => t.id == appt.slotId && t.isBooked) from rfl,
    List.any_eq_true] at hsb
  obtain ⟨t0, ht0, hpt0⟩ := hsb
  simp only [Bool.and_eq_true, beq_iff_eq] at hpt0
  obtain ⟨ht0id, ht0bk⟩ := hpt0
  have hone : nonCancelledCount db appt.slotId = 1 :=
    ht0id ▸ hc2 t0 ht0 ht0bk
  have hrefappt : refP appt.slotId appt = true := by
    simp [refP, hanc]
  have hrefuniq : ∀ b ∈ db.appointments, refP appt.slotId b = true →
      b = appt := by
    intro b hb hrb
    by_contra hne
    have h2 := two_le_countP_of_mem_ne (refP appt.slotId) b appt hne hrb
      hrefappt db.appointments hb hamem
    unfold nonCancelledCount at hone
    omega
  -- counts at other slots are untouched
  have hmapcount : ∀ sid : Nat, sid ≠ appt.slotId →
      nonCancelledCount (cancelResultDb db u apptId appt apptDoctor) sid =
        nonCancelledCount db sid := by
    intro sid hne
    show (cancelStatusUpdate db.appointments apptId).countP (refP sid) =
      db.appointments.countP (refP sid)
    unfold cancelStatusUpdate
    rw [List.countP_map]
    apply List.countP_congr
    intro b hb
    simp only [Function.comp]
    by_cases h1 : b.id = apptId
    · have hbe : b = appt := happuniq b hb h1
      subst hbe
      have hslot : (b.slotId == sid) = false := by
        rw [beq_eq_false_iff_ne]
        exact fun hh => hne hh.symm
      simp [h1, refP, hslot]
    · simp [h1]
  -- the freed slot has no remaining non-cancelled referencer
  have hmapcount0 :
      nonCancelledCount (cancelResultDb db u apptId appt apptDoctor)
        appt.slotId = 0 := by
    show (cancelStatusUpdate db.appointments apptId).countP
      (refP appt.slotId) = 0
    rw [List.countP_eq_zero]
    intro b2 hb2 hp2
    unfold cancelStatusUpdate at hb2
    obtain ⟨b, hb, rfl⟩ := List.mem_map.mp hb2
    by_cases h1 : b.id = apptId
    · rw [if_pos (by simp [h1])] at hp2
      simp [refP] at hp2
    · rw [if_neg (by simp [h1])] at hp2
      exact h1 (by rw [hrefuniq b hb hp2, haid])
  have happtids : (cancelStatusUpdate db.appointments apptId).map
      Appointment.id = db.appointments.map Appointment.id := by
    unfold cancelStatusUpdate
    rw [List.map_map]
    apply List.map_congr_left
    intro b _
    by_cases h1 : b.id = apptId <;> simp [h1]
  have hslotids : (releaseSlotUpdate db.slots appt.slotId).map Slot.id =
      db.slots.map Slot.id := by
    unfold releaseSlotUpdate
    rw [List.map_map]
    apply List.map_congr_left
    intro t _
    by_cases h1 : t.id = appt.slotId <;> simp [h1]
  refine ⟨⟨?_, ?_, ?_⟩, ?_, ?_⟩
  · show ((releaseSlotUpdate db.slots appt.slotId).map Slot.id).Nodup
    rw [hslotids]
    exact hnds
  · show ((cancelStatusUpdate db.appointments apptId).map
      Appointment.id).Nodup
    rw [happtids]
    exact hnda
  · intro b2 hb2
    obtain ⟨b, hb, rfl⟩ := List.mem_map.mp hb2
    show (if b.id == apptId then { b with status := Status.cancelled }
      else b).id < db.nextApptId
    by_cases h1 : b.id = apptId
    · rw [if_pos (by simp [h1])]
      exact hbound b hb
    · rw [if_neg (by simp [h1])]
      exact hbound b hb
  · -- consistency
    apply consistent_intro
    · intro a2 ha2m hact2
      obtain ⟨b, hb, rfl⟩ := List.mem_map.mp ha2m
      by_cases h1 : b.id = apptId
      · rw [if_pos (by simp [h1])] at hact2
        simp [activeStatus] at hact2
      · rw [if_neg (by simp [h1])] at hact2 ⊢
        have hbneq : b.slotId ≠ appt.slotId := by
          intro heq
          have hrb : refP appt.slotId b = true := by
            have hnc : (b.status == Status.cancelled) = false :=
              activeStatus_not_cancelled b.status hact2
            simp only [refP, Bool.and_eq_true, beq_iff_eq, Bool.not_eq_true']
            exact ⟨heq, hnc⟩
          exact h1 (by rw [hrefuniq b hb hrb, haid])
        have hb2 := hc1 b hb hact2
        rw [show apptSlotBooked db b =
            db.slots.any (fun t => t.id == b.slotId && t.isBooked) from rfl,
          List.any_eq_true] at hb2
        obtain ⟨t, ht, hpt⟩ := hb2
        simp only [Bool.and_eq_true, beq_iff_eq] at hpt
        show (releaseSlotUpdate db.slots appt.slotId).any
          (fun t2 => t2.id == b.slotId && t2.isBooked) = true
        rw [List.any_eq_true]
        refine ⟨if t.id == appt.slotId then { t with isBooked := false }
          else t, List.mem_map.mpr ⟨t, ht, rfl⟩, ?_⟩
        have htne : t.id ≠ appt.slotId := by
          rw [hpt.1]
          exact hbneq
        rw [if_neg (by simp [htne])]
        simp [hpt.1, hpt.2]
    · intro t2 ht2 hbk
      obtain ⟨t, ht, rfl⟩ := List.mem_map.mp ht2
      by_cases h1 : t.id = appt.slotId
      · rw [if_pos (by simp [h1])] at hbk
        simp at hbk
      · rw [if_neg (by simp [h1])] at hbk ⊢
        rw [hmapcount t.id h1, hc2 t ht hbk]
    · intro t2 ht2 hfree a2 ha2m hsid
      obtain ⟨t, ht, rfl⟩ := List.mem_map.mp ht2
      obtain ⟨b, hb, rfl⟩ := List.mem_map.mp ha2m
      by_cases hb1 : b.id = apptId
      · rw [if_pos (by simp [hb1])]
        rfl
      · rw [if_neg (by simp [hb1])] at hsid ⊢
        by_cases h1 : t.id = appt.slotId
        · rw [if_pos (by simp [h1])] at hsid
          have hsid2 : b.slotId = appt.slotId := by
            rw [show b.slotId = t.id from hsid]
            exact h1
          by_cases hbc : activeStatus b.status = true
          · exfalso
            have hrb : refP appt.slotId b = true := by
              simp [refP, hsid2, activeStatus_not_cancelled b.status hbc]
            exact hb1 (by rw [hrefuniq b hb hrb, haid])
          · simpa using hbc
        · rw [if_neg (by simp [h1])] at hsid hfree
          have := hfr t ht hfree b hb hsid
          simp [this, activeStatus]
  · -- free slots stay unreferenced
    apply freeUnref_intro
    intro t2 ht2 hfree a2 ha2m hsid
    obtain ⟨t, ht, rfl⟩ := List.mem_map.mp ht2
    obtain ⟨b, hb, rfl⟩ := List.mem_map.mp ha2m
    by_cases hb1 : b.id = apptId
    · rw [if_pos (by simp [hb1])]
    · rw [if_neg (by simp [hb1])] at hsid ⊢
      by_cases h1 : t.id = appt.slotId
      · rw [if_pos (by simp [h1])] at hsid
        have hsid2 : b.slotId = appt.slotId := by
          rw [show b.slotId = t.id from hsid]
          exact h1
        have hrb : refP appt.slotId b = true ∨ b.status = Status.cancelled := by
          by_cases hbc : b.status = Status.cancelled
          · exact Or.inr hbc
          · refine Or.inl ?_
            simp [refP, hsid2, beq_eq_false_iff_ne, hbc]
        rcases hrb with hrb | hrb
        · exact absurd (by rw [hrefuniq b hb hrb, haid]) hb1
        · exact hrb
      · rw [if_neg (by simp [h1])] at hsid hfree
        exact hfr t ht hfree b hb hsid

/-- C1 (amended): starting from a well-formed state satisfying the
bidirectional slot/appointment invariant together with the auxiliary
property that free slots are referenced by no non-cancelled appointment,
every completed bookAppointment and every completed cancelAppointment
preserves all three; updateStatus does not (see the counterexample). -/
theorem book_cancel_preserve_invariant :
    (∀ (db : DB) (u : User) (req : BookRequest) (now : Nat) (db2 : DB)
      (a : Appointment),
      WF db → consistent db = true → freeSlotsUnreferenced db = true →
      bookAppointment db u req now = (db2, Except.ok a) →
      WF db2 ∧ consistent db2 = true ∧ freeSlotsUnreferenced db2 = true) ∧
    (∀ (db : DB) (u : User) (apptId : Nat) (db2 : DB),
      WF db → consistent db = true → freeSlotsUnreferenced db = true →
      cancelAppointment db u apptId = (db2, Except.ok ()) →
      WF db2 ∧ consistent db2 = true ∧ freeSlotsUnreferenced db2 = true) :=
  ⟨fun db u req now db2 a hwf hc hf h =>
      book_preserves_inv db u req now db2 a hwf hc hf h,
   fun db u apptId db2 hwf hc hf h =>
      cancel_preserves_inv db u apptId db2 hwf hc hf h⟩

/-- C1 witness: a concrete successful booking and a concrete successful
cancellation both preserve the invariant. -/
theorem book_cancel_preserve_invariant_witness :
    (WF (bookResultDb freeDb pUser bookReq doc freeSlot6) ∧
      consistent (bookResultDb freeDb pUser bookReq doc freeSlot6) = true ∧
      freeSlotsUnreferenced
        (bookResultDb freeDb pUser bookReq doc freeSlot6) = true) ∧
    (WF (cancelResultDb baseDb pUser 1 appt1 doc) ∧
      consistent (cancelResultDb baseDb pUser 1 appt1 doc) = true ∧
      freeSlotsUnreferenced (cancelResultDb baseDb pUser 1 appt1 doc) = true) :=
  ⟨book_cancel_preserve_invariant.1 freeDb pUser bookReq 0
      (bookResultDb freeDb pUser bookReq doc freeSlot6)
      (mkBookedAppt freeDb pUser bookReq doc freeSlot6)
      (by decide) (by decide) (by decide) (by decide),
   book_cancel_preserve_invariant.2 baseDb pUser 1
      (cancelResultDb baseDb pUser 1 appt1 doc)
      (by decide) (by decide) (by decide) (by decide)⟩
